import Mathlib

/-
Verification development for the hs-automation repository
(Help Scout ticket enrichment: classification, severity, clustering,
alerting, and feedback-driven continuous learning).

The repository snapshot contains the documentation (README.md,
API-REFERENCE.md, COMPREHENSIVE_GUIDE.md, CHANGELOG), the SQL migrations
and the Next.js dashboard sources.  The Python engine modules
(api/engine/severity.py, api/engine/llm.py, api/app.py) are not part of
the snapshot, so the engine-side operations below are modelled from the
specification; the dashboard-side operations (tag-correction patching,
the feedback modal's severity options, the priority-ticket filter) are
embedded directly from src/dashboard/pages/dashboard.tsx, and the
feedback-table key constraint from src/api/migrations/0002_add_feedback.sql.
-/

/-- The closed intent enumeration (API-REFERENCE.md, "Valid Intents"). -/
inductive Intent where
  | bug_report
  | crash_report
  | billing_issue
  | delete_account
  | lost_progress
  | feedback
  | question
  | gameplay_issue
  | incomplete_ticket
  | unreadable
  deriving DecidableEq, Repr

/-- Severity buckets, ordered low < medium < high. -/
inductive Bucket where
  | low
  | medium
  | high
  deriving DecidableEq, Repr

/-- Numeric rank of a bucket, used for the low < medium < high ordering. -/
def Bucket.rank : Bucket → Nat
  | .low => 0
  | .medium => 1
  | .high => 2

/-- Least upper bound of two buckets ("escalate to at least ..."). -/
def Bucket.lub (a b : Bucket) : Bucket :=
  if a.rank ≤ b.rank then b else a

/-- Modelled from the spec: step 2 of the Severity Engine (§4.3) in the
missing api/engine/severity.py — score bucketization:
score ≥ 50 → high; score ≥ 30 → medium; else low. -/
def scoreBucket (score : Nat) : Bucket :=
  if 50 ≤ score then .high
  else if 30 ≤ score then .medium
  else .low

/-- Outcome of the severity engine: bucket plus optional escalation reason. -/
structure SevOutcome where
  bucket : Bucket
  escalationReason : Option String
  deriving DecidableEq, Repr

/-- Modelled from the spec: steps 2–5 of the Severity Engine (§4.3) in the
missing api/engine/severity.py.  `windowCount` is the number of
`gameplay_issue` records sharing the arriving record's cluster key inside
the trailing 48-hour window, the arriving record included ("3+ complaints
in 48 hours → medium, 5+ → high", COMPREHENSIVE_GUIDE.md §2.2.2).
Step 3 applies the intent-based forced overrides, step 4 the dynamic
volume escalation for `gameplay_issue`, and step 5 the final override
forcing `incomplete_ticket`/`unreadable` to low. -/
def severityBucket (intent : Intent) (score : Nat) (windowCount : Nat) : SevOutcome :=
  let base := scoreBucket score
  let overridden : Bucket :=
    match intent with
    | .crash_report => .high
    | .lost_progress => .high
    | .billing_issue => base.lub .medium
    | .gameplay_issue => .low
    | _ => base
  let escalated : Bucket × Option String :=
    if intent = .gameplay_issue then
      if 5 ≤ windowCount then
        (overridden.lub .high,
         some ("Escalated to high: " ++ toString windowCount ++ " similar gameplay reports in 48h"))
      else if 3 ≤ windowCount then
        (overridden.lub .medium,
         some ("Escalated to medium: " ++ toString windowCount ++ " similar gameplay reports in 48h"))
      else (overridden, none)
    else (overridden, none)
  if intent = .incomplete_ticket ∨ intent = .unreadable then
    { bucket := .low, escalationReason := none }
  else
    { bucket := escalated.1, escalationReason := escalated.2 }

/-- A record already persisted by the pipeline, as needed for the
cluster-volume lookup: its cluster key, intent and timestamp (seconds). -/
structure StoredRec where
  clusterKey : String
  intent : Intent
  ts : Nat
  deriving DecidableEq, Repr

/-- Modelled from the spec: the ClusterVolumeView (§3) computed by the
missing api backend — the count of `gameplay_issue` records sharing a
cluster key whose timestamp falls inside the trailing 48-hour window. -/
def clusterVolume (priors : List StoredRec) (key : String) (now : Nat) : Nat :=
  (priors.filter (fun r =>
    decide (r.clusterKey = key ∧ r.intent = .gameplay_issue ∧
      r.ts ≤ now ∧ now - r.ts ≤ 48 * 3600))).length

/-- Split a character list into lines (separator eaten, like str.splitlines). -/
def splitLines : List Char → List (List Char)
  | [] => [[]]
  | c :: cs =>
    match splitLines cs with
    | [] => [[c]]
    | l :: ls => if c = '\n' then [] :: l :: ls else (c :: l) :: ls

/-- Boolean "starts with" over the underlying character list (the shallow
embedding of JavaScript's `String.startsWith` / Python's `str.startswith`). -/
def strStarts (t pat : String) : Bool :=
  pat.data.isPrefixOf t.data

/-- Modelled from the spec: the boilerplate/template line patterns the
Preprocessor (§4.1) strips in the missing api/engine/llm.py — "User ID: …",
"OS: …", "Device: …" and embedded markup. -/
def isBoilerLine (l : List Char) : Bool :=
  "User ID:".data.isPrefixOf l || "OS:".data.isPrefixOf l ||
    "Device:".data.isPrefixOf l || "<".data.isPrefixOf l

/-- Modelled from the spec: the Preprocessor's boilerplate stripping (§4.1)
in the missing api/engine/llm.py — drop template lines, keep the rest as
the signal text. -/
def stripBoilerplate (text : String) : String :=
  ⟨List.intercalate ['\n'] ((splitLines text.data).filter (fun l => !(isBoilerLine l)))⟩

/-- Modelled from the spec: the gibberish/incomprehensibility heuristic of
the Preprocessor (§4.1) in the missing api/engine/llm.py — abnormal
character-class ratio: fewer than half of the characters are letters,
digits or spaces. -/
def isGibberish (s : String) : Bool :=
  2 * (s.data.countP (fun c => c.isAlphanum || c = ' ')) < s.data.length

/-- Entities extracted from a ticket (platform, app version, level). -/
structure Entities where
  platform : Option String
  appVersion : Option String
  level : Option String
  deriving DecidableEq, Repr

def Entities.none : Entities := ⟨Option.none, Option.none, Option.none⟩

/-- A raw support ticket as the core receives it (§3). -/
structure Ticket where
  convId : Nat
  number : Nat
  subject : String
  text : String
  tags : List String
  updatedAt : Nat
  agentReplied : Bool
  deriving DecidableEq, Repr

/-- The record produced by `enrich` for every ticket (§3). -/
structure EnrichedRecord where
  intent : Intent
  summary : String
  entities : Entities
  score : Nat
  bucket : Bucket
  clusterKey : String
  suggestedTags : List String
  escalationReason : Option String
  deriving DecidableEq, Repr

/-- Structured result of the external classification capability (§4.4). -/
structure ClassifyResult where
  intent : Intent
  entities : Entities
  deriving DecidableEq, Repr

/-- A stored human-feedback row, after src/api/migrations/0002_add_feedback.sql:
conversation_id, ticket_number, action_type, feedback_data, created_at. -/
structure FeedbackRecord where
  conversationId : Nat
  ticketNumber : Option Nat
  actionType : String
  feedbackData : String
  createdAt : Nat
  deriving DecidableEq, Repr

/-- Modelled from the spec: `submitFeedback` (§4.6) in the missing
api/app.py — an upsert keyed by (conversation id, action type): the new
record replaces any prior record for the same pair, as enforced by the
UNIQUE(conversation_id, action_type) constraint of migration 0002.
The store is kept newest first. -/
def submitFeedback (store : List FeedbackRecord) (cid : Nat) (action : String)
    (payload : String) (now : Nat) : List FeedbackRecord :=
  { conversationId := cid, ticketNumber := Option.none, actionType := action,
    feedbackData := payload, createdAt := now } ::
    store.filter (fun r => !(decide (r.conversationId = cid ∧ r.actionType = action)))

/-- The records stored for one (conversation id, action type) pair. -/
def pairRecords (store : List FeedbackRecord) (cid : Nat) (action : String) :
    List FeedbackRecord :=
  store.filter (fun r => decide (r.conversationId = cid ∧ r.actionType = action))

/-- Modelled from the spec: `recentCorrections` (§4.6) in the missing
api/app.py — the most recent `tag_correction` records, newest first. -/
def recentCorrections (store : List FeedbackRecord) (n : Nat) : List FeedbackRecord :=
  (store.filter (fun r => decide (r.actionType = "tag_correction"))).take n

/-- Spec-level name of an intent, used in cluster keys and suggested tags. -/
def intentName : Intent → String
  | .bug_report => "bug_report"
  | .crash_report => "crash_report"
  | .billing_issue => "billing_issue"
  | .delete_account => "delete_account"
  | .lost_progress => "lost_progress"
  | .feedback => "feedback"
  | .question => "question"
  | .gameplay_issue => "gameplay_issue"
  | .incomplete_ticket => "incomplete_ticket"
  | .unreadable => "unreadable"

/-- Spec-level name of a bucket, used in suggested tags. -/
def bucketName : Bucket → String
  | .low => "low"
  | .medium => "medium"
  | .high => "high"

/-- Boolean test for `pat` occurring as a contiguous sub-list of `l`. -/
def hasSub : List Char → List Char → Bool
  | [], pat => pat.isEmpty
  | c :: rest, pat => pat.isPrefixOf (c :: rest) || hasSub rest pat

/-- Boolean substring test over the underlying character lists. -/
def containsSub (s pat : String) : Bool :=
  hasSub s.data pat.data

/-- Modelled from the spec: step 1 of the Severity Engine (§4.3) in the
missing api/engine/severity.py — point values for crash, progress-loss
and payment/billing keyword signals, with the "charged twice" phrase at
the high tier and the "refund" phrase at the medium tier. -/
def baseScore (signal : String) : Nat :=
  (if containsSub signal "crash" then 60 else 0) +
    (if containsSub signal "progress" && containsSub signal "lost" then 50 else 0) +
    (if containsSub signal "charged twice" then 50 else 0) +
    (if containsSub signal "refund" then 30 else 0) +
    (if containsSub signal "payment" then 20 else 0)

/-- Modelled from the spec: the topic signature reduction of the Cluster
Key Generator (§4.2) in the missing api backend — the first matching
keyword from a fixed list, else "general". -/
def topicSig (signal : String) : String :=
  if containsSub signal "crash" then "crash"
  else if containsSub signal "progress" then "progress"
  else if containsSub signal "payment" || containsSub signal "refund" then "payment"
  else if containsSub signal "level" then "level"
  else "general"

/-- Modelled from the spec: the Cluster Key Generator (§4.2) in the missing
api backend — a pure function of normalized intent, platform and a reduced
topic signature of the signal text. -/
def clusterKeyOf (intent : Intent) (ents : Entities) (signal : String) : String :=
  intentName intent ++ "|" ++ ents.platform.getD "any" ++ "|" ++ topicSig signal

/-- Modelled from the spec: `buildPrompt(signalText, examples)` (§9) in the
missing api/engine/llm.py — pure data injection of the few-shot examples
into the classification prompt. -/
def buildPrompt (signal : String) (examples : List FeedbackRecord) : String :=
  (examples.map (fun r => r.feedbackData ++ "\n")).foldr (· ++ ·) "" ++ signal

/-- Modelled from the spec: the Intent Classifier's validation (§4.4) in
the missing api/engine/llm.py — the classifier never emits the two
preprocessor-only intents; those fall back to the default `question`. -/
def validateIntent : Intent → Intent
  | .incomplete_ticket => .question
  | .unreadable => .question
  | i => i

/-- Modelled from the spec: the fixed minimal EnrichedRecord returned on
the empty-ticket short circuit (§4.1) in the missing api/engine/llm.py —
placeholder summary, no entities, forced `low`. -/
def incompleteTicketRecord : EnrichedRecord :=
  { intent := .incomplete_ticket
    summary := "Empty ticket - no real user message provided"
    entities := Entities.none
    score := 0
    bucket := .low
    clusterKey := "incomplete_ticket|any|general"
    suggestedTags := ["intent:incomplete_ticket", "sev:low"]
    escalationReason := Option.none }

/-- Modelled from the spec: the fixed minimal EnrichedRecord returned on
the unreadable short circuit (§4.1) in the missing api/engine/llm.py. -/
def unreadableRecord : EnrichedRecord :=
  { intent := .unreadable
    summary := "Unreadable or gibberish message"
    entities := Entities.none
    score := 0
    bucket := .low
    clusterKey := "unreadable|any|general"
    suggestedTags := ["intent:unreadable", "sev:low"]
    escalationReason := Option.none }

/-- Modelled from the spec: the Enrichment Orchestrator `enrich(ticket)`
(§2, §4.1–§4.4, §6) in the missing api backend.  `classify` is the injected
external classification capability (invoked on the prompt built from the
signal text and the recent corrections) and `summarize` the free-text
summary channel of the same capability; `priors` is the persisted record
set used for the cluster-volume lookup at time `now`. -/
def enrich (classify : String → ClassifyResult) (summarize : String → String)
    (fb : List FeedbackRecord) (priors : List StoredRec) (now : Nat)
    (t : Ticket) : EnrichedRecord :=
  let signal := stripBoilerplate t.text
  if signal.length < 40 then incompleteTicketRecord
  else if isGibberish signal then unreadableRecord
  else
    let res := classify (buildPrompt signal (recentCorrections fb 5))
    let intent := validateIntent res.intent
    let score := baseScore signal
    let key := clusterKeyOf intent res.entities signal
    let sev := severityBucket intent score (clusterVolume priors key now + 1)
    { intent := intent
      summary := summarize signal
      entities := res.entities
      score := score
      bucket := sev.bucket
      clusterKey := key
      suggestedTags := ["intent:" ++ intentName intent, "sev:" ++ bucketName sev.bucket]
      escalationReason := sev.escalationReason }

/-- Alert decision returned by the Alert Gate (§4.5). -/
inductive Decision where
  | send
  | suppress
  deriving DecidableEq, Repr

/-- Modelled from the spec: the special Slack tag per intent (§4.5) in the
missing api backend. -/
def specialTag : Intent → Option String
  | .delete_account => some "DELETE_REQUEST"
  | .incomplete_ticket => some "EMPTY_TICKET"
  | .unreadable => some "UNREADABLE"
  | _ => Option.none

/-- Alert payload built by the Alert Gate when it decides to send. -/
structure AlertPayload where
  intent : Intent
  bucket : Bucket
  tag : Option String
  deriving DecidableEq, Repr

/-- Modelled from the spec: `decideAlert` (§4.5, §6) in the missing api
backend — suppress whenever the agent has already replied, for any
severity and any intent; otherwise send with the special-intent tag. -/
def decideAlert (r : EnrichedRecord) (agentReplied : Bool) :
    Decision × Option AlertPayload :=
  if agentReplied then (.suppress, Option.none)
  else (.send, some { intent := r.intent, bucket := r.bucket, tag := specialTag r.intent })

/-- From src/dashboard/pages/dashboard.tsx (submitFeedback, lines 178–200):
the local patch of a record's suggested-tags list after a tag correction.
A non-empty corrected intent removes every `intent:*` tag and unshifts
`intent:<corrected>`; a non-empty corrected severity then removes every
`sev:*` tag and unshifts `sev:<corrected>` (empty string = "keep current",
matching JavaScript truthiness). -/
def applyTagCorrection (tags : List String) (correctIntent correctSeverity : String) :
    List String :=
  let tags1 :=
    if correctIntent ≠ "" then
      ("intent:" ++ correctIntent) :: tags.filter (fun t => !(strStarts t "intent:"))
    else tags
  if correctSeverity ≠ "" then
    ("sev:" ++ correctSeverity) :: tags1.filter (fun t => !(strStarts t "sev:"))
  else tags1

/-- From src/dashboard/pages/dashboard.tsx (feedback modal, lines 441–448):
the values the "Correct Severity" select can submit, in interface order. -/
def severitySelectOptions : List String :=
  ["", "critical", "high", "medium", "low"]

/-- The spec's closed severity enumeration (spec §3: low | medium | high). -/
def specSeverityEnum : List String :=
  ["low", "medium", "high"]

/-- Character-wise lower-casing (the shallow embedding of JavaScript's
`String.toLowerCase` on ASCII bucket names). -/
def strToLower (s : String) : String :=
  ⟨s.data.map Char.toLower⟩

/-- From src/dashboard/pages/dashboard.tsx (priority tickets filter, lines
549–553): a ticket is listed under "Priority Tickets (Critical & High)"
when its severity bucket is non-empty and lower-cases into
['critical','high']. -/
def isPriorityTicket (bucket : String) : Bool :=
  bucket ≠ "" && ["critical", "high"].contains (strToLower bucket)

/-- A concrete persisted record set: four `gameplay_issue` records of the
same cluster key inside one 48-hour window. -/
def fourGameplayPriors : List StoredRec :=
  [⟨"k", .gameplay_issue, 100⟩, ⟨"k", .gameplay_issue, 200⟩,
   ⟨"k", .gameplay_issue, 300⟩, ⟨"k", .gameplay_issue, 400⟩]

/-- A concrete ticket whose whole text is shorter than 40 characters. -/
def tinyTicket : Ticket :=
  { convId := 1, number := 7, subject := "hi", text := "ok", tags := [],
    updatedAt := 0, agentReplied := false }

/-- A trivial classification capability used only to instantiate witnesses. -/
def constClassify : String → ClassifyResult :=
  fun _ => { intent := .question, entities := Entities.none }

/-- Claim C1: for intent `incomplete_ticket` or `unreadable` the severity
bucket is `low`, for every score and every cluster-volume count — so a
feedback-driven re-run of the severity engine can never change it. -/
theorem final_override_forces_low (i : Intent) (s c : Nat)
    (h : i = .incomplete_ticket ∨ i = .unreadable) :
    (severityBucket i s c).bucket = .low := by
  rcases h with h | h <;> subst h <;> simp [severityBucket]

theorem final_override_forces_low_witness :
    (Intent.incomplete_ticket = Intent.incomplete_ticket ∨
      Intent.incomplete_ticket = Intent.unreadable) ∧
    (severityBucket .incomplete_ticket 999 9).bucket = .low :=
  ⟨Or.inl rfl, final_override_forces_low .incomplete_ticket 999 9 (Or.inl rfl)⟩

/-- Claim C2: `crash_report` and `lost_progress` are always bucketed
`high`, for every base score and every cluster-volume count. -/
theorem crash_lost_progress_always_high (i : Intent) (s c : Nat)
    (h : i = .crash_report ∨ i = .lost_progress) :
    (severityBucket i s c).bucket = .high := by
  rcases h with h | h <;> subst h <;> simp [severityBucket]

theorem crash_lost_progress_always_high_witness :
    (Intent.crash_report = Intent.crash_report ∨
      Intent.crash_report = Intent.lost_progress) ∧
    (severityBucket .crash_report 0 0).bucket = .high :=
  ⟨Or.inl rfl, crash_lost_progress_always_high .crash_report 0 0 (Or.inl rfl)⟩

/-- Claim C7: `delete_account`, `question` and `feedback` receive no
intent-based override — the final bucket is the standard score-derived
bucket (score ≥ 50 → high, score ≥ 30 → medium, else low). -/
theorem no_override_intents_standard_bucket (i : Intent) (s c : Nat)
    (h : i = .delete_account ∨ i = .question ∨ i = .feedback) :
    (severityBucket i s c).bucket = scoreBucket s ∧
      scoreBucket s = (if 50 ≤ s then .high else if 30 ≤ s then .medium else .low) := by
  refine ⟨?_, rfl⟩
  rcases h with h | h | h <;> subst h <;> simp [severityBucket]

theorem no_override_intents_standard_bucket_witness :
    (Intent.delete_account = Intent.delete_account ∨
      Intent.delete_account = Intent.question ∨
      Intent.delete_account = Intent.feedback) ∧
    ((severityBucket .delete_account 42 7).bucket = scoreBucket 42 ∧
      scoreBucket 42 =
        (if 50 ≤ 42 then .high else if 30 ≤ 42 then .medium else .low)) :=
  ⟨Or.inl rfl, no_override_intents_standard_bucket .delete_account 42 7 (Or.inl rfl)⟩

/-- Helper: the dynamic escalation for `gameplay_issue` at window count ≥ 3
yields at least `medium` and records a reason. -/
theorem gameplay_count_three_medium (s c : Nat) (h : 3 ≤ c) :
    Bucket.medium.rank ≤ (severityBucket .gameplay_issue s c).bucket.rank ∧
      (severityBucket .gameplay_issue s c).escalationReason.isSome = true := by
  by_cases h5 : 5 ≤ c <;>
    simp [severityBucket, h, h5, Bucket.lub, Bucket.rank]

/-- Helper: the dynamic escalation for `gameplay_issue` at window count ≥ 5
yields `high` and records a reason. -/
theorem gameplay_count_five_high (s c : Nat) (h : 5 ≤ c) :
    Bucket.high.rank ≤ (severityBucket .gameplay_issue s c).bucket.rank ∧
      (severityBucket .gameplay_issue s c).escalationReason.isSome = true := by
  simp [severityBucket, h, Bucket.lub, Bucket.rank]

/-- Claim C4: with 2 prior `gameplay_issue` records of the same cluster key
inside the trailing 48 hours, a 3rd record is bucketed at least `medium`;
with 4 priors, a 5th is bucketed at least `high`; and whenever the volume
escalation fires an escalation reason is recorded. -/
theorem gameplay_volume_escalation (priors : List StoredRec) (key : String)
    (now s : Nat) :
    (2 ≤ clusterVolume priors key now →
      Bucket.medium.rank ≤
          (severityBucket .gameplay_issue s (clusterVolume priors key now + 1)).bucket.rank ∧
        (severityBucket .gameplay_issue s
            (clusterVolume priors key now + 1)).escalationReason.isSome = true) ∧
    (4 ≤ clusterVolume priors key now →
      Bucket.high.rank ≤
          (severityBucket .gameplay_issue s (clusterVolume priors key now + 1)).bucket.rank ∧
        (severityBucket .gameplay_issue s
            (clusterVolume priors key now + 1)).escalationReason.isSome = true) := by
  constructor
  · intro h
    exact gameplay_count_three_medium s _ (by omega)
  · intro h
    exact gameplay_count_five_high s _ (by omega)

theorem gameplay_volume_escalation_witness :
    4 ≤ clusterVolume fourGameplayPriors "k" 1000 ∧
      (Bucket.high.rank ≤
          (severityBucket .gameplay_issue 0
            (clusterVolume fourGameplayPriors "k" 1000 + 1)).bucket.rank ∧
        (severityBucket .gameplay_issue 0
            (clusterVolume fourGameplayPriors "k" 1000 + 1)).escalationReason.isSome = true) :=
  ⟨by decide, (gameplay_volume_escalation fourGameplayPriors "k" 1000 0).2 (by decide)⟩

/-- Claim C5: when the cleaned signal text is shorter than 40 characters,
`enrich` returns the fixed minimal record — intent `incomplete_ticket`,
bucket `low`, placeholder summary, no entities — for every classification
and summary capability, so no LLM call can influence the result. -/
theorem short_signal_short_circuit (classify : String → ClassifyResult)
    (summarize : String → String) (fb : List FeedbackRecord)
    (priors : List StoredRec) (now : Nat) (t : Ticket)
    (h : (stripBoilerplate t.text).length < 40) :
    enrich classify summarize fb priors now t = incompleteTicketRecord ∧
      incompleteTicketRecord.intent = .incomplete_ticket ∧
      incompleteTicketRecord.bucket = .low ∧
      incompleteTicketRecord.entities = Entities.none := by
  refine ⟨?_, rfl, rfl, rfl⟩
  simp [enrich, h]

theorem short_signal_short_circuit_witness :
    (stripBoilerplate tinyTicket.text).length < 40 ∧
      (enrich constClassify (fun s => s) [] [] 0 tinyTicket = incompleteTicketRecord ∧
        incompleteTicketRecord.intent = .incomplete_ticket ∧
        incompleteTicketRecord.bucket = .low ∧
        incompleteTicketRecord.entities = Entities.none) :=
  ⟨by decide,
    short_signal_short_circuit constClassify (fun s => s) [] [] 0 tinyTicket (by decide)⟩

/-- Claim C6: `decideAlert` returns `suppress` whenever the agent-replied
flag is true, for every enriched record — hence for every severity bucket
and every intent. -/
theorem agent_replied_suppresses (r : EnrichedRecord) :
    (decideAlert r true).1 = .suppress := by
  simp [decideAlert]

/-- Claim C9: two `enrich` runs on the same ticket with the same
classification capability, feedback history and persisted record set agree
on intent, severity bucket and cluster key, even when the free-text summary
channel differs between the runs. -/
theorem enrich_closed_fields_deterministic (classify : String → ClassifyResult)
    (fb : List FeedbackRecord) (priors : List StoredRec) (now : Nat) (t : Ticket)
    (summarize₁ summarize₂ : String → String) :
    (enrich classify summarize₁ fb priors now t).intent =
        (enrich classify summarize₂ fb priors now t).intent ∧
      (enrich classify summarize₁ fb priors now t).bucket =
        (enrich classify summarize₂ fb priors now t).bucket ∧
      (enrich classify summarize₁ fb priors now t).clusterKey =
        (enrich classify summarize₂ fb priors now t).clusterKey := by
  by_cases h1 : (stripBoilerplate t.text).length < 40
  · simp [enrich, h1]
  · by_cases h2 : isGibberish (stripBoilerplate t.text) = true
    · simp [enrich, h1, h2]
    · simp [enrich, h1, h2]

/-- Claim C3: `submitFeedback` is an upsert — it keeps at most one stored
record per (conversation id, action type) pair, and after two submissions
for the same pair exactly one record is stored, carrying the second
submission's payload. -/
theorem feedback_upsert_unique :
    (∀ (store : List FeedbackRecord) (cid : Nat) (action payload : String)
        (now : Nat) (cid' : Nat) (action' : String),
      (pairRecords store cid' action').length ≤ 1 →
      (pairRecords (submitFeedback store cid action payload now) cid' action').length ≤ 1) ∧
    (∀ (store : List FeedbackRecord) (cid : Nat) (action p₁ p₂ : String) (t₁ t₂ : Nat),
      pairRecords (submitFeedback (submitFeedback store cid action p₁ t₁) cid action p₂ t₂)
          cid action =
        [{ conversationId := cid, ticketNumber := Option.none, actionType := action,
           feedbackData := p₂, createdAt := t₂ }]) := by
  constructor
  · intro store cid action payload now cid' action' h
    by_cases hp : cid' = cid ∧ action' = action
    · obtain ⟨h1, h2⟩ := hp
      subst h1; subst h2
      simp [pairRecords, submitFeedback, List.filter_filter]
    · have hne : ¬(cid = cid' ∧ action = action') := fun hc => hp ⟨hc.1.symm, hc.2.symm⟩
      simp only [pairRecords, submitFeedback, List.filter_cons, decide_eq_true_eq,
        hne, if_false]
      simp only [pairRecords] at h
      exact le_trans
        (List.Sublist.length_le
          (List.Sublist.filter _ (List.filter_sublist store))) h
  · intro store cid action p₁ p₂ t₁ t₂
    simp [pairRecords, submitFeedback, List.filter_filter]

theorem feedback_upsert_unique_witness :
    (pairRecords [] 3 "tag_correction").length ≤ 1 ∧
      (pairRecords (submitFeedback [] 3 "tag_correction" "fix" 10) 3 "tag_correction").length ≤ 1 :=
  ⟨by decide, feedback_upsert_unique.1 [] 3 "tag_correction" "fix" 10 3 "tag_correction" (by decide)⟩

/-- Helper: a string starts with itself followed by anything. -/
theorem strStarts_append_self (p s : String) : strStarts (p ++ s) p = true := by
  show (p.data).isPrefixOf ((p ++ s).data) = true
  rw [show (p ++ s).data = p.data ++ s.data from rfl]
  simp

/-- Helper: a freshly built `intent:*` tag is not a `sev:*` tag. -/
theorem intentTag_not_sevTag (s : String) : strStarts ("intent:" ++ s) "sev:" = false := by
  show ("sev:".data).isPrefixOf (("intent:" ++ s).data) = false
  rw [show ("intent:" ++ s).data = "intent:".data ++ s.data from rfl]
  rfl

/-- Helper: a freshly built `sev:*` tag is not an `intent:*` tag. -/
theorem sevTag_not_intentTag (s : String) : strStarts ("sev:" ++ s) "intent:" = false := by
  show ("intent:".data).isPrefixOf (("sev:" ++ s).data) = false
  rw [show ("sev:" ++ s).data = "sev:".data ++ s.data from rfl]
  rfl

/-- Helper: boolean contradiction pattern arising from nested tag filters. -/
theorem band_mid_contra (a b : Bool) : (a && (b && !a)) = false := by
  cases a <;> cases b <;> rfl

/-- Claim C8: applying a `tag_correction` that supplies a corrected intent
(and optionally a corrected severity) to a suggested-tags list holding at
most one `sev:*` entry yields a list with at most one `intent:*` entry and
at most one `sev:*` entry, in which `intent:<corrected>` is the first
`intent:*` entry. -/
theorem tag_correction_normalizes (tags : List String) (ci cs : String)
    (hci : ci ≠ "")
    (hsev : tags.countP (fun t => strStarts t "sev:") ≤ 1) :
    (applyTagCorrection tags ci cs).countP (fun t => strStarts t "intent:") ≤ 1 ∧
      (applyTagCorrection tags ci cs).countP (fun t => strStarts t "sev:") ≤ 1 ∧
      ((applyTagCorrection tags ci cs).filter (fun t => strStarts t "intent:")).head? =
        some ("intent:" ++ ci) := by
  unfold applyTagCorrection
  rw [if_pos hci]
  by_cases hcs : cs ≠ ""
  · rw [if_pos hcs]
    refine ⟨?_, ?_, ?_⟩
    · simp [List.countP_cons, List.countP_filter, List.filter_cons,
        strStarts_append_self, intentTag_not_sevTag, sevTag_not_intentTag,
        band_mid_contra]
    · simp [List.countP_cons, List.countP_filter, List.filter_cons,
        strStarts_append_self, intentTag_not_sevTag, sevTag_not_intentTag,
        band_mid_contra]
      intro a _ h1 h2
      simp [h1] at h2
    · simp [List.filter_cons, strStarts_append_self, intentTag_not_sevTag,
        sevTag_not_intentTag]
  · rw [if_neg hcs]
    refine ⟨?_, ?_, ?_⟩
    · simp [List.countP_cons, List.countP_filter, strStarts_append_self]
    · have hle : ((tags.filter (fun t => !(strStarts t "intent:"))).countP
          (fun t => strStarts t "sev:")) ≤
          tags.countP (fun t => strStarts t "sev:") :=
        List.Sublist.countP_le _ (List.filter_sublist tags)
      simp [List.countP_cons, intentTag_not_sevTag]
      omega
    · simp [List.filter_cons, strStarts_append_self]

theorem tag_correction_normalizes_witness :
    ("refund_request" ≠ "" ∧
      (["intent:question", "sev:low", "platform:android"].countP
        (fun t => strStarts t "sev:") ≤ 1)) ∧
    ((applyTagCorrection ["intent:question", "sev:low", "platform:android"]
          "refund_request" "").countP (fun t => strStarts t "intent:") ≤ 1 ∧
      (applyTagCorrection ["intent:question", "sev:low", "platform:android"]
          "refund_request" "").countP (fun t => strStarts t "sev:") ≤ 1 ∧
      ((applyTagCorrection ["intent:question", "sev:low", "platform:android"]
            "refund_request" "").filter (fun t => strStarts t "intent:")).head? =
        some ("intent:" ++ "refund_request")) :=
  ⟨⟨by decide, by decide⟩,
    tag_correction_normalizes ["intent:question", "sev:low", "platform:android"]
      "refund_request" "" (by decide) (by decide)⟩

/-- Claim C10: every value the dashboard's feedback-modal severity select
can submit is `critical`, `high`, `medium`, `low` or the empty string
("keep current"); the select offers `critical`, a bucket outside the spec's
closed low|medium|high enumeration; and the priority-ticket filter treats
`critical` together with `high` (and no other bucket). -/
theorem dashboard_critical_severity_support :
    severitySelectOptions.all
        (fun v => ["", "critical", "high", "medium", "low"].contains v) = true ∧
      severitySelectOptions.contains "critical" = true ∧
      specSeverityEnum.contains "critical" = false ∧
      isPriorityTicket "critical" = true ∧
      isPriorityTicket "high" = true ∧
      isPriorityTicket "medium" = false ∧
      isPriorityTicket "low" = false := by
  refine ⟨by decide, by decide, by decide, by decide, by decide, by decide, by decide⟩
